import Mathlib

/-!
Shallow embedding of the order/escrow lifecycle engine of the
escrow-e-com marketplace backend.

The definitions below translate the JavaScript route handlers of the
orders router and the admin router, together with the mongoose `Order`,
`Product` and `Seller` schemas, into pure Lean functions.  MongoDB
object ids are modelled as `Nat`, timestamps as `Int` milliseconds since
the epoch, monetary amounts as `Nat` (request validators enforce
non-negativity) and the mutable per-product stock as `Int` (the update
path writes it with an unconditional decrement, so it is not a priori
non-negative).  Each HTTP handler becomes a function from the relevant
record(s) to `Except ErrCode _`; an `error` result corresponds to the
handler returning an error response before any `save`, so the persisted
state is unchanged.
-/

/-- Escrow lifecycle states of the `escrow.status` enum in the order schema. -/
inductive EscrowStatus
  | pending
  | held
  | released_to_seller
  | refunded_to_customer
  deriving DecidableEq, Repr

/-- Order states of the `status` enum in the order schema. -/
inductive OrderStatus
  | pending_payment
  | payment_confirmed
  | processing
  | shipped
  | out_for_delivery
  | delivered
  | cancelled
  | refunded
  deriving DecidableEq, Repr

/-- Dispute states of the `dispute.status` enum in the order schema.
The source value `open` is rendered `open_` because `open` is a Lean keyword. -/
inductive DisputeStatus
  | open_
  | under_review
  | resolved
  | closed
  deriving DecidableEq, Repr

/-- Seller verification states of the `verificationStatus` enum in the seller schema. -/
inductive SellerVerification
  | pending
  | under_review
  | verified
  | rejected
  deriving DecidableEq, Repr

/-- Product states of the `status` enum in the product schema. -/
inductive ProductStatus
  | active
  | inactive
  | out_of_stock
  | discontinued
  deriving DecidableEq, Repr

/-- Payment states of the `payment.status` enum in the order schema. -/
inductive PaymentStatus
  | pending
  | completed
  | failed
  | refunded
  deriving DecidableEq, Repr

/-- Identity of the actor stamped into `escrow.releasedBy`: a user id, or the
system itself for the scheduler sweep of spec section 4.4. -/
inductive Releaser
  | user (id : Nat)
  | system
  deriving DecidableEq, Repr

/-- Typed failure codes returned by the embedded handlers, mirroring the
`code` fields of the JSON error responses (`SERVER_ERROR` stands for the
catch-all 500 path). -/
inductive ErrCode
  | VALIDATION_FAILED
  | PRODUCT_UNAVAILABLE
  | INSUFFICIENT_STOCK
  | ORDER_NOT_FOUND
  | INVALID_STATUS
  | REFUND_NOT_ALLOWED
  | DISPUTE_NOT_FOUND
  | SERVER_ERROR
  deriving DecidableEq, Repr

/-- A seller record, restricted to the fields the order/escrow engine reads. -/
structure Seller where
  id : Nat
  verificationStatus : SellerVerification
  isActive : Bool
  deriving DecidableEq, Repr

/-- A product record, restricted to the fields the order/escrow engine reads
and writes.  `stock` is an `Int` because the reservation path decrements it
with an unconditional update. -/
structure Product where
  id : Nat
  sellerId : Nat
  name : String
  price : Nat
  stock : Int
  status : ProductStatus
  sku : Option String
  images : List String
  deriving DecidableEq, Repr

/-- The `productSnapshot` sub-document of an order line item. -/
structure ProductSnapshot where
  name : String
  image : Option String
  sku : Option String
  deriving DecidableEq, Repr

/-- An order line item as built by the order-creation handler. -/
structure OrderItem where
  productId : Nat
  quantity : Nat
  price : Nat
  productSnapshot : ProductSnapshot
  deriving DecidableEq, Repr

/-- The `pricing` sub-document of an order. -/
structure Pricing where
  subtotal : Nat
  shippingCost : Nat
  tax : Nat
  discount : Nat
  total : Nat
  currency : String
  deriving DecidableEq, Repr

/-- The `shippingAddress` sub-document of an order. -/
structure Address where
  name : String
  phone : String
  street : String
  city : String
  division : String
  postalCode : String
  country : String := "Bangladesh"
  deriving DecidableEq, Repr

/-- The `escrow` sub-document of an order. -/
structure Escrow where
  status : EscrowStatus
  holdUntil : Option Int := none
  releaseRequested : Option Bool := none
  releaseRequestedAt : Option Int := none
  customerApproval : Bool := false
  customerApprovalAt : Option Int := none
  autoReleaseAt : Option Int := none
  releasedAt : Option Int := none
  releasedBy : Option Releaser := none
  deriving DecidableEq, Repr

/-- The `payment` sub-document of an order, restricted to the fields the
engine writes. -/
structure Payment where
  method : String
  status : PaymentStatus
  deriving DecidableEq, Repr

/-- The `shipping` tracking sub-document of an order. -/
structure ShippingInfo where
  trackingNumber : Option String := none
  shippedAt : Option Int := none
  deliveredAt : Option Int := none
  deriving DecidableEq, Repr

/-- The `dispute` sub-document of an order. -/
structure Dispute where
  isDisputed : Bool
  reason : Option String := none
  description : Option String := none
  evidence : List String := []
  status : Option DisputeStatus := none
  resolvedBy : Option Nat := none
  resolution : Option String := none
  createdAt : Option Int := none
  resolvedAt : Option Int := none
  deriving DecidableEq, Repr

/-- The `refund` sub-document of an order. -/
structure Refund where
  isRefunded : Bool
  reason : Option String := none
  amount : Option Nat := none
  requestedAt : Option Int := none
  approvedAt : Option Int := none
  processedAt : Option Int := none
  adminNotes : Option String := none
  deriving DecidableEq, Repr

/-- One entry of the append-only `notes` log of an order. -/
structure Note where
  type : String
  message : String
  createdBy : Nat
  createdAt : Int
  deriving DecidableEq, Repr

/-- An order document, with the sub-documents of the order schema. -/
structure Order where
  orderNumber : String
  customerId : Nat
  sellerId : Nat
  items : List OrderItem
  pricing : Pricing
  shippingAddress : Address
  status : OrderStatus
  escrow : Escrow
  payment : Payment
  shipping : ShippingInfo
  dispute : Dispute
  refund : Refund
  notes : List Note
  deriving DecidableEq, Repr

/-- The persisted state read and written by the handlers: the product,
seller and order collections. -/
structure Db where
  products : List Product
  sellers : List Seller
  orders : List Order
  deriving DecidableEq, Repr

/-- One entry of the `items` array of an order-creation request. -/
structure ReqItem where
  productId : Nat
  quantity : Nat
  deriving DecidableEq, Repr

/-- Milliseconds in a day, the conversion constant of the route helpers. -/
def msPerDay : Int := 1000 * 60 * 60 * 24

/-- The escrow hold period in days: the `ESCROW_HOLD_DAYS` fallback used by
`setEscrowAutoRelease` when the environment value is unset. -/
def ESCROW_HOLD_DAYS : Nat := 7

/-- The fixed 30-day refund window of the `canRequestRefund` helper. -/
def refundWindowDays : Int := 30

/-- `Product.findById`. -/
def findProduct (products : List Product) (pid : Nat) : Option Product :=
  products.find? (fun p => p.id == pid)

/-- `Seller.findById`. -/
def findSeller (sellers : List Seller) (sid : Nat) : Option Seller :=
  sellers.find? (fun s => s.id == sid)

/-- The `populate` of a product with its seller filtered by the match
condition `verificationStatus = verified, isActive = true`: the populated
field is the seller when it exists and satisfies the match, else null. -/
def populatedSeller (sellers : List Seller) (p : Product) : Option Seller :=
  match findSeller sellers p.sellerId with
  | some s =>
      if s.verificationStatus = SellerVerification.verified ∧ s.isActive then some s
      else none
  | none => none

/-- One iteration of the item-validation loop of the order-creation handler:
resolve the product with its verified seller, reject unavailable products and
insufficient stock, and build the snapshotted line item. -/
def checkItem (db : Db) (it : ReqItem) : Except ErrCode OrderItem :=
  match findProduct db.products it.productId with
  | none => .error .PRODUCT_UNAVAILABLE
  | some p =>
      if p.status ≠ ProductStatus.active then .error .PRODUCT_UNAVAILABLE
      else if populatedSeller db.sellers p = none then .error .PRODUCT_UNAVAILABLE
      else if p.stock < (it.quantity : Int) then .error .INSUFFICIENT_STOCK
      else .ok { productId := p.id, quantity := it.quantity, price := p.price,
                 productSnapshot := { name := p.name, image := p.images.head?,
                                      sku := p.sku } }

/-- The item-validation loop: validate the items in order, stopping at the
first failure. -/
def validateItems (db : Db) : List ReqItem → Except ErrCode (List OrderItem)
  | [] => .ok []
  | it :: rest =>
      match checkItem db it with
      | .error e => .error e
      | .ok oi =>
          match validateItems db rest with
          | .error e => .error e
          | .ok ois => .ok (oi :: ois)

/-- The running subtotal accumulated by the validation loop: the sum of
unit price times quantity over the line items. -/
def subtotalOf (ois : List OrderItem) : Nat :=
  (ois.map (fun i => i.price * i.quantity)).sum

/-- The payment methods accepted by the request validator. -/
def paymentMethods : List String :=
  ["stripe", "sslcommerz", "bkash", "nagad", "rocket"]

/-- The express-validator checks of the order-creation request: at least one
item, positive quantities, non-empty address fields and a known payment
method (any failure yields the combined 400 validation response). -/
def requestValid (items : List ReqItem) (addr : Address) (pm : String) : Bool :=
  !items.isEmpty
    && items.all (fun it => 1 ≤ it.quantity)
    && (addr.name ≠ "" && addr.phone ≠ "" && addr.street ≠ ""
        && addr.city ≠ "" && addr.division ≠ "" && addr.postalCode ≠ "" : Bool)
    && paymentMethods.contains pm

/-- The `$inc` stock update of one reserved line item: an unconditional
decrement of the matching product's stock. -/
def decStock (products : List Product) (pid : Nat) (qty : Nat) : List Product :=
  products.map (fun p => if p.id = pid then { p with stock := p.stock - qty } else p)

/-- The reservation loop run after the order is saved: decrement the stock of
every line item in turn. -/
def reserveAll (products : List Product) : List OrderItem → List Product
  | [] => products
  | oi :: rest => reserveAll (decStock products oi.productId oi.quantity) rest

/-- The pricing breakdown computed by the order-creation handler: the
subtotal accumulated from the line items, a flat 60 shipping fee waived when
the subtotal exceeds 1000, tax stubbed at 0, and the total recomputed as
their sum (the schema defaults the discount to 0). -/
def pricingOf (orderItems : List OrderItem) : Pricing :=
  { subtotal := subtotalOf orderItems
    shippingCost := if subtotalOf orderItems > 1000 then 0 else 60
    tax := 0
    discount := 0
    total := subtotalOf orderItems
      + (if subtotalOf orderItems > 1000 then 0 else 60) + 0
    currency := "BDT" }

/-- The order document built by the order-creation handler, whose `sellerId`
is the seller of the first request item's product `p0`. -/
def newOrderOf (customerId : Nat) (orderItems : List OrderItem)
    (addr : Address) (paymentMethod : String) (newOrderNumber : String)
    (p0 : Product) : Order :=
  { orderNumber := newOrderNumber
    customerId := customerId
    sellerId := p0.sellerId
    items := orderItems
    pricing := pricingOf orderItems
    shippingAddress := addr
    status := .pending_payment
    escrow := { status := .pending }
    payment := { method := paymentMethod, status := .pending }
    shipping := {}
    dispute := { isDisputed := false }
    refund := { isRefunded := false }
    notes := [] }

/-- The order-creation handler: validate the request, validate every item
against the current catalog, compute the pricing breakdown, build and save
the order, then decrement the stock of every line item.  Every failure path
returns before any write, so the state component is the input state there. -/
def createOrder (db : Db) (customerId : Nat) (items : List ReqItem)
    (addr : Address) (paymentMethod : String)
    (newOrderNumber : String) : Except ErrCode Order × Db :=
  if requestValid items addr paymentMethod = false then (.error .VALIDATION_FAILED, db)
  else
    match validateItems db items with
    | .error e => (.error e, db)
    | .ok orderItems =>
        match items.head? with
        | none => (.error .SERVER_ERROR, db)
        | some it0 =>
            match findProduct db.products it0.productId with
            | none => (.error .SERVER_ERROR, db)
            | some p0 =>
                (.ok (newOrderOf customerId orderItems addr paymentMethod
                        newOrderNumber p0),
                 { db with
                   orders := db.orders ++
                     [newOrderOf customerId orderItems addr paymentMethod
                        newOrderNumber p0],
                   products := reserveAll db.products orderItems })

/-- `orderSchema.methods.setEscrowAutoRelease`: set the auto-release deadline
to the hold period after now, only when the order is delivered and the
deadline is not already set. -/
def setEscrowAutoRelease (now : Int) (o : Order) : Order :=
  if o.status = OrderStatus.delivered ∧ o.escrow.autoReleaseAt = none then
    { o with escrow :=
        { o.escrow with
            autoReleaseAt := some (now + (ESCROW_HOLD_DAYS : Int) * msPerDay) } }
  else o

/-- The confirm-delivery handler: the caller must be the order's seller and
the order must be shipped; then the order becomes delivered, the delivery
timestamp is recorded, escrow is put in `held` and the auto-release deadline
is set. -/
def confirmDelivery (o : Order) (sellerId : Nat) (now : Int) :
    Except ErrCode Order :=
  if o.sellerId ≠ sellerId then .error .ORDER_NOT_FOUND
  else if o.status ≠ OrderStatus.shipped then .error .INVALID_STATUS
  else
    .ok (setEscrowAutoRelease now
      { o with
        status := OrderStatus.delivered,
        shipping := { o.shipping with deliveredAt := some now },
        escrow := { o.escrow with status := .held } })

/-- The approve-delivery handler: the caller must be the order's buyer, the
order must be delivered with escrow `held`; then escrow is released to the
seller and the approval and release stamps are recorded. -/
def approveDelivery (o : Order) (userId : Nat) (now : Int) :
    Except ErrCode Order :=
  if o.customerId ≠ userId then .error .ORDER_NOT_FOUND
  else if o.status ≠ OrderStatus.delivered ∨ o.escrow.status ≠ EscrowStatus.held then
    .error .INVALID_STATUS
  else
    .ok { o with escrow :=
      { o.escrow with
          status := .released_to_seller,
          customerApproval := true,
          customerApprovalAt := some now,
          releasedAt := some now,
          releasedBy := some (.user userId) } }

/-- The `canRequestRefund` helper: the order has a recorded delivery
timestamp, at most the refund window has elapsed since delivery, and escrow
is `held`. -/
def canRequestRefund (now : Int) (o : Order) : Bool :=
  match o.shipping.deliveredAt with
  | none => false
  | some d =>
      decide (now - d ≤ refundWindowDays * msPerDay)
        && decide (o.escrow.status = EscrowStatus.held)

/-- The request-refund handler: a non-empty reason is required, the caller
must be the order's buyer and `canRequestRefund` must hold; then a pending
refund sub-record is written and a customer note appended. -/
def requestRefund (o : Order) (userId : Nat) (reason description : String)
    (now : Int) : Except ErrCode Order :=
  if reason = "" then .error .VALIDATION_FAILED
  else if o.customerId ≠ userId then .error .ORDER_NOT_FOUND
  else if canRequestRefund now o = false then .error .REFUND_NOT_ALLOWED
  else
    .ok { o with
      refund := { isRefunded := false, reason := some reason,
                  amount := some o.pricing.total, requestedAt := some now },
      notes := o.notes ++
        [{ type := "customer",
           message := "Refund requested: " ++ reason ++ ". " ++ description,
           createdBy := userId, createdAt := now }] }

/-- Whether the optional `refundAmount` of a dispute resolution request is
present and positive (`refundAmount > 0` in the handler, false when absent). -/
def refundGiven : Option Nat → Bool
  | some r => decide (0 < r)
  | none => false

/-- The audit note appended by the resolve-dispute handler. -/
def adminNoteOf (adminId : Nat) (resolution : String)
    (adminNotes : Option String) (now : Int) : Note :=
  { type := "admin"
    message := "Dispute resolved: " ++ resolution ++
      (match adminNotes with
       | some n => " Notes: " ++ n
       | none => "")
    createdBy := adminId
    createdAt := now }

/-- The dispute sub-record stamped resolved by the resolve-dispute handler. -/
def resolvedDisputeOf (d : Dispute) (adminId : Nat) (resolution : String)
    (now : Int) : Dispute :=
  { d with status := some .resolved, resolution := some resolution,
           resolvedBy := some adminId, resolvedAt := some now }

/-- The resolve-dispute handler: a non-empty resolution is required and the
order must be disputed; the dispute is stamped resolved, and depending on the
refund amount escrow is set to `refunded_to_customer` with a completed refund
sub-record, or to `released_to_seller` with release stamps; an admin note is
appended. -/
def resolveDispute (o : Order) (adminId : Nat) (resolution : String)
    (refundAmount : Option Nat) (adminNotes : Option String) (now : Int) :
    Except ErrCode Order :=
  if resolution = "" then .error .VALIDATION_FAILED
  else if o.dispute.isDisputed = false then .error .DISPUTE_NOT_FOUND
  else if refundGiven refundAmount then
    .ok { o with
          dispute := resolvedDisputeOf o.dispute adminId resolution now,
          refund := { isRefunded := true
                      reason := some "Admin dispute resolution"
                      amount := refundAmount
                      requestedAt := some now
                      approvedAt := some now
                      processedAt := some now
                      adminNotes := adminNotes },
          escrow := { o.escrow with status := .refunded_to_customer },
          notes := o.notes ++ [adminNoteOf adminId resolution adminNotes now] }
  else
    .ok { o with
          dispute := resolvedDisputeOf o.dispute adminId resolution now,
          escrow := { o.escrow with
                      status := .released_to_seller,
                      releasedAt := some now,
                      releasedBy := some (.user adminId) },
          notes := o.notes ++ [adminNoteOf adminId resolution adminNotes now] }

/-- Whether the scheduler sweep of spec section 4.4 releases an order:
escrow `held`, deadline elapsed, and no open or under-review dispute. -/
def sweepEligible (now : Int) (o : Order) : Bool :=
  decide (o.escrow.status = EscrowStatus.held)
    && (match o.escrow.autoReleaseAt with
        | some t => decide (t ≤ now)
        | none => false)
    && !(decide (o.dispute.status = some DisputeStatus.open_)
         || decide (o.dispute.status = some DisputeStatus.under_review))

/-- Modelled from the spec: the Auto-Release Scheduler of spec section 4.4 is
absent from the source (only the stored `escrow.autoReleaseAt` deadline
implies it); per the spec, its per-order step releases escrow to the seller,
stamping `releasedBy = system`, for an order with escrow `held`, an elapsed
deadline and no open dispute, and leaves any other order untouched. -/
def autoReleaseSweepOrder (now : Int) (o : Order) : Order :=
  if sweepEligible now o then
    { o with escrow :=
      { o.escrow with status := .released_to_seller,
                      releasedAt := some now,
                      releasedBy := some .system } }
  else o

/-- The persisted order after a request: the handler's result on success, the
untouched input order when the handler failed before saving. -/
def afterOp (r : Except ErrCode Order) (o : Order) : Order :=
  match r with
  | .ok o' => o'
  | .error _ => o

/-- The stock of a product in a given state, by id. -/
def stockOf (db : Db) (pid : Nat) : Option Int :=
  (findProduct db.products pid).map (fun p => p.stock)

/-- The seller recorded on a created order: the seller of the first request
item's product. -/
def firstSellerId (db : Db) (items : List ReqItem) : Option Nat :=
  (items.head?.bind (fun it0 => findProduct db.products it0.productId)).map
    (fun p => p.sellerId)

/-- Whether a request item trips one of the item-validation failures of the
order-creation handler: missing or non-active product, no verified active
seller, or a quantity above the product's stock. -/
def itemIssue (db : Db) (it : ReqItem) : Bool :=
  match findProduct db.products it.productId with
  | none => true
  | some p =>
      decide (p.status ≠ ProductStatus.active)
        || decide (populatedSeller db.sellers p = none)
        || decide (p.stock < (it.quantity : Int))

/-- A well-formed shipping address used by the concrete instances below. -/
def baseAddress : Address :=
  { name := "Sakib", phone := "0170", street := "Road 1", city := "Dhaka",
    division := "Dhaka", postalCode := "1200" }

/-- A baseline order used by the concrete instances below. -/
def baseOrder : Order :=
  { orderNumber := "BD000000000"
    customerId := 1
    sellerId := 2
    items := []
    pricing := { subtotal := 900, shippingCost := 60, tax := 0, discount := 0,
                 total := 960, currency := "BDT" }
    shippingAddress := baseAddress
    status := .pending_payment
    escrow := { status := .pending }
    payment := { method := "bkash", status := .pending }
    shipping := {}
    dispute := { isDisputed := false }
    refund := { isRefunded := false }
    notes := [] }

/-- Two verified active sellers and one pending (unverified) seller. -/
def sampleSellers : List Seller :=
  [ { id := 2, verificationStatus := .verified, isActive := true },
    { id := 3, verificationStatus := .verified, isActive := true },
    { id := 4, verificationStatus := .pending, isActive := true } ]

/-- Three products: two owned by the distinct verified sellers, one owned by
the unverified seller. -/
def sampleProducts : List Product :=
  [ { id := 1, sellerId := 2, name := "Bat", price := 100, stock := 4,
      status := .active, sku := some "SKU1", images := ["u1"] },
    { id := 5, sellerId := 3, name := "Ball", price := 2000, stock := 10,
      status := .active, sku := none, images := [] },
    { id := 6, sellerId := 4, name := "Cap", price := 50, stock := 8,
      status := .active, sku := none, images := [] } ]

/-- A catalog state used by the order-creation instances. -/
def sampleDb : Db :=
  { products := sampleProducts, sellers := sampleSellers, orders := [] }

/-- An order whose escrow is already terminal (released to the seller) while
its dispute record is still flagged disputed. -/
def c1order : Order :=
  { baseOrder with
    status := .delivered,
    shipping := { deliveredAt := some 500 },
    escrow := { status := .released_to_seller, releasedAt := some 600,
                releasedBy := some (.user 1) },
    dispute := { isDisputed := true, status := some .resolved,
                 reason := some "damaged" } }

/-- A disputed order whose escrow has not yet reached held. -/
def w1order : Order :=
  { baseOrder with
    dispute := { isDisputed := true, status := some .open_,
                 reason := some "late" } }

/-- A delivered order with escrow held and an open dispute. -/
def c2order : Order :=
  { baseOrder with
    status := .delivered,
    shipping := { deliveredAt := some 100 },
    escrow := { status := .held, autoReleaseAt := some 700 },
    dispute := { isDisputed := true, status := some .open_,
                 reason := some "wrong item" } }

/-- A disputed order whose dispute is already resolved (its status is neither
open nor under review). -/
def c3order : Order :=
  { baseOrder with
    status := .delivered,
    shipping := { deliveredAt := some 100 },
    escrow := { status := .released_to_seller, releasedAt := some 200 },
    dispute := { isDisputed := true, status := some .resolved,
                 reason := some "broken" } }

/-- A disputed order with an open dispute and escrow held. -/
def c3worder : Order :=
  { baseOrder with
    status := .delivered,
    shipping := { deliveredAt := some 100 },
    escrow := { status := .held },
    dispute := { isDisputed := true, status := some .open_,
                 reason := some "broken" } }

/-- A shipped order of seller 2 whose auto-release deadline is unset. -/
def c6order : Order :=
  { baseOrder with status := .shipped }

/-- A delivered order with escrow held, delivered at time 0. -/
def c8order : Order :=
  { baseOrder with
    status := .delivered,
    shipping := { deliveredAt := some 0 },
    escrow := { status := .held, autoReleaseAt := some 604800000 } }

/-- A delivered order with escrow held and an elapsed auto-release deadline,
for the scheduler instance. -/
def c2sweeporder : Order :=
  { baseOrder with
    status := .delivered,
    shipping := { deliveredAt := some 0 },
    escrow := { status := .held, autoReleaseAt := some 604800000 } }

theorem afterOp_of_isOk_false {r : Except ErrCode Order} {o : Order}
    (h : r.isOk = false) : afterOp r o = o := by
  cases r with
  | error e => rfl
  | ok o' => simp [Except.isOk, Except.toBool] at h

theorem approveDelivery_not_held {o : Order} {u : Nat} {now : Int}
    (h : o.escrow.status ≠ EscrowStatus.held) :
    (approveDelivery o u now).isOk = false := by
  unfold approveDelivery
  by_cases h1 : o.customerId ≠ u
  · rw [if_pos h1]; rfl
  · rw [if_neg h1, if_pos (Or.inr h)]; rfl

theorem confirmDelivery_not_shipped {o : Order} {s : Nat} {now : Int}
    (h : o.status ≠ OrderStatus.shipped) :
    (confirmDelivery o s now).isOk = false := by
  unfold confirmDelivery
  by_cases h1 : o.sellerId ≠ s
  · rw [if_pos h1]; rfl
  · rw [if_neg h1, if_pos h]; rfl

theorem sweep_not_held {o : Order} {now : Int}
    (h : o.escrow.status ≠ EscrowStatus.held) :
    autoReleaseSweepOrder now o = o := by
  unfold autoReleaseSweepOrder
  have he : sweepEligible now o = false := by
    unfold sweepEligible
    simp [h]
  rw [he]
  simp

theorem approveDelivery_eq (o : Order) (u : Nat) (now : Int)
    (hu : o.customerId = u) (hst : o.status = OrderStatus.delivered)
    (hh : o.escrow.status = EscrowStatus.held) :
    approveDelivery o u now = .ok { o with escrow :=
      { o.escrow with
        status := .released_to_seller,
        customerApproval := true,
        customerApprovalAt := some now,
        releasedAt := some now,
        releasedBy := some (.user u) } } := by
  unfold approveDelivery
  rw [if_neg (by simp [hu]), if_neg (by simp [hst, hh])]

theorem approveDelivery_ok {o : Order} {u : Nat} {now : Int} {o' : Order}
    (h : approveDelivery o u now = .ok o') :
    o.escrow.status = EscrowStatus.held ∧ o.status = OrderStatus.delivered ∧
    o'.escrow.status = EscrowStatus.released_to_seller := by
  unfold approveDelivery at h
  by_cases h1 : o.customerId ≠ u
  · rw [if_pos h1] at h; exact Except.noConfusion h
  · rw [if_neg h1] at h
    by_cases h2 : o.status ≠ OrderStatus.delivered ∨ o.escrow.status ≠ EscrowStatus.held
    · rw [if_pos h2] at h; exact Except.noConfusion h
    · rw [if_neg h2] at h
      push_neg at h2
      injection h with h
      subst h
      exact ⟨h2.2, h2.1, rfl⟩

theorem confirmDelivery_eq (o : Order) (s : Nat) (now : Int)
    (hs : o.sellerId = s) (hst : o.status = OrderStatus.shipped)
    (ha : o.escrow.autoReleaseAt = none) :
    confirmDelivery o s now = .ok { o with
      status := .delivered,
      shipping := { o.shipping with deliveredAt := some now },
      escrow := { o.escrow with
                  status := .held,
                  autoReleaseAt := some (now + (ESCROW_HOLD_DAYS : Int) * msPerDay) } } := by
  unfold confirmDelivery
  rw [if_neg (by simp [hs]), if_neg (by simp [hst])]
  unfold setEscrowAutoRelease
  rw [if_pos ⟨rfl, ha⟩]

theorem resolveDispute_not_disputed {o : Order} {a : Nat} {res : String}
    {ra : Option Nat} {an : Option String} {now : Int}
    (hres : res ≠ "") (hd : o.dispute.isDisputed = false) :
    resolveDispute o a res ra an now = .error .DISPUTE_NOT_FOUND := by
  unfold resolveDispute
  rw [if_neg hres, if_pos hd]

theorem resolveDispute_eq_refund (o : Order) (a : Nat) (res : String)
    (ra : Option Nat) (an : Option String) (now : Int)
    (hres : res ≠ "") (hd : o.dispute.isDisputed = true)
    (hr : refundGiven ra = true) :
    resolveDispute o a res ra an now = .ok
      { o with
        dispute := resolvedDisputeOf o.dispute a res now,
        refund := { isRefunded := true
                    reason := some "Admin dispute resolution"
                    amount := ra
                    requestedAt := some now
                    approvedAt := some now
                    processedAt := some now
                    adminNotes := an },
        escrow := { o.escrow with status := .refunded_to_customer },
        notes := o.notes ++ [adminNoteOf a res an now] } := by
  unfold resolveDispute
  rw [if_neg hres, if_neg (by simp [hd]), if_pos hr]

theorem resolveDispute_eq_release (o : Order) (a : Nat) (res : String)
    (ra : Option Nat) (an : Option String) (now : Int)
    (hres : res ≠ "") (hd : o.dispute.isDisputed = true)
    (hr : refundGiven ra = false) :
    resolveDispute o a res ra an now = .ok
      { o with
        dispute := resolvedDisputeOf o.dispute a res now,
        escrow := { o.escrow with
                    status := .released_to_seller,
                    releasedAt := some now,
                    releasedBy := some (.user a) },
        notes := o.notes ++ [adminNoteOf a res an now] } := by
  unfold resolveDispute
  rw [if_neg hres, if_neg (by simp [hd]), if_neg (by simp [hr])]

theorem resolveDispute_ok {o : Order} {a : Nat} {res : String} {ra : Option Nat}
    {an : Option String} {now : Int} {o' : Order}
    (h : resolveDispute o a res ra an now = .ok o') :
    o'.escrow.status =
      (if refundGiven ra then EscrowStatus.refunded_to_customer
       else EscrowStatus.released_to_seller) ∧
    o'.dispute.status = some DisputeStatus.resolved ∧
    (refundGiven ra = true →
       o'.refund.isRefunded = true ∧ o'.refund.amount = ra ∧
       o'.refund.processedAt = some now) := by
  by_cases h1 : res = ""
  · unfold resolveDispute at h
    rw [if_pos h1] at h
    exact Except.noConfusion h
  · by_cases h2 : o.dispute.isDisputed = true
    · by_cases hr : refundGiven ra = true
      · rw [resolveDispute_eq_refund o a res ra an now h1 h2 hr] at h
        injection h with h
        subst h
        simp [hr, resolvedDisputeOf]
      · have hr' : refundGiven ra = false := by simpa using hr
        rw [resolveDispute_eq_release o a res ra an now h1 h2 hr'] at h
        injection h with h
        subst h
        simp [hr', resolvedDisputeOf]
    · have h2' : o.dispute.isDisputed = false := by simpa using h2
      rw [resolveDispute_not_disputed h1 h2'] at h
      exact Except.noConfusion h

theorem resolveDispute_isOk (o : Order) (a : Nat) (res : String)
    (ra : Option Nat) (an : Option String) (now : Int)
    (hres : res ≠ "") (hd : o.dispute.isDisputed = true) :
    (resolveDispute o a res ra an now).isOk = true := by
  by_cases hr : refundGiven ra = true
  · rw [resolveDispute_eq_refund o a res ra an now hres hd hr]; rfl
  · have hr' : refundGiven ra = false := by simpa using hr
    rw [resolveDispute_eq_release o a res ra an now hres hd hr']; rfl

theorem checkItem_isOk_false_of_issue {db : Db} {it : ReqItem}
    (h : itemIssue db it = true) : (checkItem db it).isOk = false := by
  unfold itemIssue at h
  unfold checkItem
  cases hf : findProduct db.products it.productId with
  | none => rfl
  | some p =>
      dsimp only
      rw [hf] at h
      rcases (by simpa [or_assoc] using h :
          p.status ≠ ProductStatus.active ∨ populatedSeller db.sellers p = none ∨
            p.stock < (it.quantity : Int)) with h1 | h2 | h3
      · rw [if_pos h1]; rfl
      · by_cases h1 : p.status ≠ ProductStatus.active
        · rw [if_pos h1]; rfl
        · rw [if_neg h1, if_pos h2]; rfl
      · by_cases h1 : p.status ≠ ProductStatus.active
        · rw [if_pos h1]; rfl
        · by_cases h2 : populatedSeller db.sellers p = none
          · rw [if_neg h1, if_pos h2]; rfl
          · rw [if_neg h1, if_neg h2, if_pos h3]; rfl

theorem checkItem_isOk_find {db : Db} {it : ReqItem}
    (h : (checkItem db it).isOk = true) :
    ∃ p, findProduct db.products it.productId = some p := by
  unfold checkItem at h
  cases hf : findProduct db.products it.productId with
  | none => rw [hf] at h; simp [Except.isOk, Except.toBool] at h
  | some p => exact ⟨p, rfl⟩

theorem checkItem_ok_fields {db : Db} {it : ReqItem} {oi : OrderItem}
    (h : checkItem db it = .ok oi) :
    oi.productId = it.productId ∧ oi.quantity = it.quantity := by
  unfold checkItem at h
  cases hf : findProduct db.products it.productId with
  | none => rw [hf] at h; exact Except.noConfusion h
  | some p =>
      rw [hf] at h
      dsimp only at h
      by_cases h1 : p.status ≠ ProductStatus.active
      · rw [if_pos h1] at h; exact Except.noConfusion h
      · rw [if_neg h1] at h
        by_cases h2 : populatedSeller db.sellers p = none
        · rw [if_pos h2] at h; exact Except.noConfusion h
        · rw [if_neg h2] at h
          by_cases h3 : p.stock < (it.quantity : Int)
          · rw [if_pos h3] at h; exact Except.noConfusion h
          · rw [if_neg h3] at h
            injection h with h
            subst h
            refine ⟨?_, rfl⟩
            have h4 := List.find?_some (by simpa [findProduct] using hf)
            simpa using h4

theorem validateItems_isOk_false {db : Db} {l : List ReqItem} {it : ReqItem}
    (hmem : it ∈ l) (hbad : (checkItem db it).isOk = false) :
    (validateItems db l).isOk = false := by
  induction l with
  | nil => cases hmem
  | cons hd tl ih =>
      rcases List.mem_cons.mp hmem with h | h
      · subst h
        unfold validateItems
        cases hc : checkItem db it with
        | error e => rfl
        | ok oi => rw [hc] at hbad; simp [Except.isOk, Except.toBool] at hbad
      · unfold validateItems
        cases hc : checkItem db hd with
        | error e => rfl
        | ok oi =>
            cases hv : validateItems db tl with
            | error e => rfl
            | ok ois =>
                have h5 := ih h
                rw [hv] at h5
                simp [Except.isOk, Except.toBool] at h5

theorem validateItems_ok_all {db : Db} {l : List ReqItem}
    (h : ∀ it ∈ l, (checkItem db it).isOk = true) :
    ∃ ois, validateItems db l = .ok ois ∧
      ois.map OrderItem.productId = l.map ReqItem.productId ∧
      ois.map OrderItem.quantity = l.map ReqItem.quantity := by
  induction l with
  | nil => exact ⟨[], rfl, rfl, rfl⟩
  | cons hd tl ih =>
      have h1 := h hd (List.mem_cons_self hd tl)
      obtain ⟨ois, hv, hp, hq⟩ := ih (fun it hit => h it (List.mem_cons_of_mem hd hit))
      cases hc : checkItem db hd with
      | error e => rw [hc] at h1; simp [Except.isOk, Except.toBool] at h1
      | ok oi =>
          obtain ⟨hpid, hqty⟩ := checkItem_ok_fields hc
          refine ⟨oi :: ois, ?_, ?_, ?_⟩
          · unfold validateItems
            rw [hc, hv]
          · simp [hp, hpid]
          · simp [hq, hqty]

/-- C7: canRequestRefund is true exactly when the order has a recorded
delivery timestamp, at most the 30-day refund window has elapsed since
delivery, and escrow is still held; in particular it is false before
delivery, false after the window, and false once escrow has left held. -/
theorem c7_theorem (now : Int) (o : Order) :
    canRequestRefund now o = true ↔
      ∃ d, o.shipping.deliveredAt = some d ∧
        now - d ≤ refundWindowDays * msPerDay ∧
        o.escrow.status = EscrowStatus.held := by
  unfold canRequestRefund
  cases hd : o.shipping.deliveredAt with
  | none => simp
  | some d => simp

/-- C1 (counterexample): the claim says any operation on an escrow already in
a terminal state fails with an invalid-transition error and leaves escrow
unchanged; but on an order whose escrow is already released_to_seller and
whose dispute flag is still set, resolveDispute succeeds and rewrites escrow
to refunded_to_customer. -/
theorem c1_counterexample :
    c1order.escrow.status = EscrowStatus.released_to_seller ∧
    (resolveDispute c1order 99 "refund buyer" (some 500) none 1000).isOk = true ∧
    (afterOp (resolveDispute c1order 99 "refund buyer" (some 500) none 1000)
        c1order).escrow.status = EscrowStatus.refunded_to_customer :=
  ⟨rfl, rfl, rfl⟩

/-- C1 (amended): the buyer-approval path respects the escrow edges — it
succeeds only on the edge held → released_to_seller, and an attempt with
escrow outside held fails and leaves the persisted order unchanged — but the
dispute-resolution path is guarded only by dispute.isDisputed and forces
escrow.status to a terminal value from any state, including terminal ones. -/
theorem c1_theorem (o : Order) (u a : Nat) (now : Int) (res : String)
    (ra : Option Nat) (an : Option String) :
    (∀ o', approveDelivery o u now = .ok o' →
        o.escrow.status = EscrowStatus.held ∧
        o'.escrow.status = EscrowStatus.released_to_seller) ∧
    (o.escrow.status ≠ EscrowStatus.held →
        (approveDelivery o u now).isOk = false ∧
        afterOp (approveDelivery o u now) o = o) ∧
    (o.dispute.isDisputed = true → res ≠ "" →
        (resolveDispute o a res ra an now).isOk = true ∧
        (afterOp (resolveDispute o a res ra an now) o).escrow.status =
          (if refundGiven ra then EscrowStatus.refunded_to_customer
           else EscrowStatus.released_to_seller)) := by
  refine ⟨?_, ?_, ?_⟩
  · intro o' h
    have h3 := approveDelivery_ok h
    exact ⟨h3.1, h3.2.2⟩
  · intro hne
    have h4 := @approveDelivery_not_held o u now hne
    exact ⟨h4, afterOp_of_isOk_false h4⟩
  · intro hd hres
    have h5 := resolveDispute_isOk o a res ra an now hres hd
    refine ⟨h5, ?_⟩
    cases hr : resolveDispute o a res ra an now with
    | error e => rw [hr] at h5; simp [Except.isOk, Except.toBool] at h5
    | ok o' => exact (resolveDispute_ok hr).1

/-- C1 (witness): the amended theorem applied to a concrete disputed order
whose escrow is still pending. -/
theorem c1_witness :
    ((approveDelivery w1order 1 5000).isOk = false ∧
      afterOp (approveDelivery w1order 1 5000) w1order = w1order) ∧
    ((resolveDispute w1order 9 "refund the buyer" (some 10) none 5000).isOk = true ∧
      (afterOp (resolveDispute w1order 9 "refund the buyer" (some 10) none 5000)
          w1order).escrow.status =
        (if refundGiven (some 10) then EscrowStatus.refunded_to_customer
         else EscrowStatus.released_to_seller)) := by
  have h := c1_theorem w1order 1 9 5000 "refund the buyer" (some 10) none
  exact ⟨h.2.1 (by decide), h.2.2 (by decide) (by decide)⟩

/-- C2 (counterexample): the claim says that after the first path moves an
order out of held, any later attempt by the three paths fails; but admin
resolution succeeds on a held disputed order and then succeeds AGAIN on the
same order. -/
theorem c2_counterexample :
    (resolveDispute c2order 9 "release funds" none none 150).isOk = true ∧
    (resolveDispute
        (afterOp (resolveDispute c2order 9 "release funds" none none 150) c2order)
        9 "refund after all" (some 500) none 200).isOk = true :=
  ⟨rfl, rfl⟩

/-- C2 (amended): after buyer approval, the scheduler sweep or admin
resolution moves an order out of held, escrow is terminal, any later buyer
approval fails and the sweep is a no-op; admin resolution, however, is
guarded only by dispute.isDisputed and is not excluded by an earlier
release. -/
theorem c2_theorem (o : Order) (u a : Nat) (n1 n2 : Int) (res : String)
    (ra : Option Nat) (an : Option String) :
    (∀ o', approveDelivery o u n1 = .ok o' →
        o'.escrow.status = EscrowStatus.released_to_seller ∧
        (approveDelivery o' u n2).isOk = false ∧
        autoReleaseSweepOrder n2 o' = o') ∧
    (∀ o', resolveDispute o a res ra an n1 = .ok o' →
        o'.escrow.status ≠ EscrowStatus.held ∧
        (approveDelivery o' u n2).isOk = false ∧
        autoReleaseSweepOrder n2 o' = o') ∧
    (sweepEligible n1 o = true →
        (autoReleaseSweepOrder n1 o).escrow.status = EscrowStatus.released_to_seller ∧
        (approveDelivery (autoReleaseSweepOrder n1 o) u n2).isOk = false ∧
        autoReleaseSweepOrder n2 (autoReleaseSweepOrder n1 o)
          = autoReleaseSweepOrder n1 o) := by
  refine ⟨?_, ?_, ?_⟩
  · intro o' h
    have h3 := approveDelivery_ok h
    have hne : o'.escrow.status ≠ EscrowStatus.held := by rw [h3.2.2]; simp
    exact ⟨h3.2.2, @approveDelivery_not_held o' u n2 hne, sweep_not_held hne⟩
  · intro o' h
    have h4 := resolveDispute_ok h
    have hne : o'.escrow.status ≠ EscrowStatus.held := by
      rw [h4.1]
      by_cases hr : refundGiven ra = true <;> simp [hr]
    exact ⟨hne, @approveDelivery_not_held o' u n2 hne, sweep_not_held hne⟩
  · intro he
    have hrel : (autoReleaseSweepOrder n1 o).escrow.status
        = EscrowStatus.released_to_seller := by
      unfold autoReleaseSweepOrder
      rw [if_pos he]
    have hne : (autoReleaseSweepOrder n1 o).escrow.status ≠ EscrowStatus.held := by
      rw [hrel]; simp
    exact ⟨hrel, @approveDelivery_not_held _ u n2 hne, sweep_not_held hne⟩

/-- C2 (witness): the amended theorem at concrete orders — buyer approval on
a held delivered order, and the scheduler sweep past the deadline. -/
theorem c2_witness :
    ((afterOp (approveDelivery c2order 1 150) c2order).escrow.status
        = EscrowStatus.released_to_seller ∧
      (approveDelivery (afterOp (approveDelivery c2order 1 150) c2order) 1 200).isOk
        = false ∧
      autoReleaseSweepOrder 200 (afterOp (approveDelivery c2order 1 150) c2order)
        = afterOp (approveDelivery c2order 1 150) c2order) ∧
    ((autoReleaseSweepOrder 604800001 c2sweeporder).escrow.status
        = EscrowStatus.released_to_seller ∧
      (approveDelivery (autoReleaseSweepOrder 604800001 c2sweeporder) 1 604800002).isOk
        = false ∧
      autoReleaseSweepOrder 604800002 (autoReleaseSweepOrder 604800001 c2sweeporder)
        = autoReleaseSweepOrder 604800001 c2sweeporder) := by
  have h1 := c2_theorem c2order 1 9 150 200 "x" none none
  have h2 := c2_theorem c2sweeporder 1 9 604800001 604800002 "x" none none
  exact ⟨h1.1 (afterOp (approveDelivery c2order 1 150) c2order) (by rfl),
         h2.2.2 (by decide)⟩

/-- C3 (counterexample): the claim says resolveDispute fails unless the
dispute status is open or under_review; but the handler succeeds on an order
whose dispute is already resolved, because it checks only the isDisputed
flag. -/
theorem c3_counterexample :
    c3order.dispute.isDisputed = true ∧
    c3order.dispute.status = some DisputeStatus.resolved ∧
    (resolveDispute c3order 9 "refund again" (some 500) none 300).isOk = true ∧
    (afterOp (resolveDispute c3order 9 "refund again" (some 500) none 300)
        c3order).escrow.status = EscrowStatus.refunded_to_customer :=
  ⟨rfl, rfl, rfl, rfl⟩

/-- C3 (amended): resolveDispute succeeds exactly when the order is flagged
disputed — the dispute status is not consulted; on success with a positive
refundAmount it records a completed refund of that amount, sets escrow to
refunded_to_customer and the dispute to resolved; without a positive
refundAmount it sets escrow to released_to_seller and the dispute to
resolved. -/
theorem c3_theorem (o : Order) (a : Nat) (res : String) (ra : Option Nat)
    (an : Option String) (now : Int) (hres : res ≠ "") :
    ((resolveDispute o a res ra an now).isOk = true ↔ o.dispute.isDisputed = true) ∧
    (∀ o', resolveDispute o a res ra an now = .ok o' →
        o'.dispute.status = some DisputeStatus.resolved ∧
        (refundGiven ra = true →
            o'.escrow.status = EscrowStatus.refunded_to_customer ∧
            o'.refund.isRefunded = true ∧ o'.refund.amount = ra ∧
            o'.refund.processedAt = some now) ∧
        (refundGiven ra = false →
            o'.escrow.status = EscrowStatus.released_to_seller)) := by
  constructor
  · constructor
    · intro hok
      by_cases hd : o.dispute.isDisputed = true
      · exact hd
      · have hd' : o.dispute.isDisputed = false := by simpa using hd
        rw [resolveDispute_not_disputed hres hd'] at hok
        simp [Except.isOk, Except.toBool] at hok
    · intro hd
      exact resolveDispute_isOk o a res ra an now hres hd
  · intro o' h
    have h6 := resolveDispute_ok h
    refine ⟨h6.2.1, ?_, ?_⟩
    · intro hr
      refine ⟨?_, (h6.2.2 hr).1, (h6.2.2 hr).2.1, (h6.2.2 hr).2.2⟩
      rw [h6.1, if_pos hr]
    · intro hr
      rw [h6.1, if_neg (by simp [hr])]

/-- C3 (witness): the amended theorem at a concrete order with an open
dispute and a 500 refund. -/
theorem c3_witness :
    ((resolveDispute c3worder 9 "refund" (some 500) none 300).isOk = true ↔
      c3worder.dispute.isDisputed = true) ∧
    ((afterOp (resolveDispute c3worder 9 "refund" (some 500) none 300)
        c3worder).dispute.status = some DisputeStatus.resolved ∧
      (refundGiven (some 500) = true →
        (afterOp (resolveDispute c3worder 9 "refund" (some 500) none 300)
            c3worder).escrow.status = EscrowStatus.refunded_to_customer ∧
        (afterOp (resolveDispute c3worder 9 "refund" (some 500) none 300)
            c3worder).refund.isRefunded = true ∧
        (afterOp (resolveDispute c3worder 9 "refund" (some 500) none 300)
            c3worder).refund.amount = some 500 ∧
        (afterOp (resolveDispute c3worder 9 "refund" (some 500) none 300)
            c3worder).refund.processedAt = some 300) ∧
      (refundGiven (some 500) = false →
        (afterOp (resolveDispute c3worder 9 "refund" (some 500) none 300)
            c3worder).escrow.status = EscrowStatus.released_to_seller)) := by
  have h := c3_theorem c3worder 9 "refund" (some 500) none 300 (by decide)
  exact ⟨h.1,
         h.2 (afterOp (resolveDispute c3worder 9 "refund" (some 500) none 300)
            c3worder) (by rfl)⟩

/-- C6: confirmDelivery on a shipped order called by its seller marks the
order delivered, records the delivery timestamp, puts escrow in held, and
sets the auto-release deadline to deliveredAt plus ESCROW_HOLD_DAYS (7)
days; a second call on the delivered order is rejected, and no call ever
changes an already-set deadline. -/
theorem c6_theorem (o : Order) (s : Nat) (now n2 : Int)
    (hs : o.sellerId = s) (hst : o.status = OrderStatus.shipped)
    (ha : o.escrow.autoReleaseAt = none) :
    (confirmDelivery o s now).isOk = true ∧
    (afterOp (confirmDelivery o s now) o).status = OrderStatus.delivered ∧
    (afterOp (confirmDelivery o s now) o).shipping.deliveredAt = some now ∧
    (afterOp (confirmDelivery o s now) o).escrow.status = EscrowStatus.held ∧
    (afterOp (confirmDelivery o s now) o).escrow.autoReleaseAt
      = some (now + (ESCROW_HOLD_DAYS : Int) * msPerDay) ∧
    (confirmDelivery (afterOp (confirmDelivery o s now) o) s n2).isOk = false ∧
    (∀ p t s2, p.escrow.autoReleaseAt = some t →
        (afterOp (confirmDelivery p s2 n2) p).escrow.autoReleaseAt = some t) := by
  have he := confirmDelivery_eq o s now hs hst ha
  rw [he]
  refine ⟨rfl, rfl, rfl, rfl, rfl, ?_, ?_⟩
  · exact confirmDelivery_not_shipped (fun hc => nomatch hc)
  · intro p t s2 hp
    unfold confirmDelivery
    by_cases h1 : p.sellerId ≠ s2
    · rw [if_pos h1]; exact hp
    · rw [if_neg h1]
      by_cases h2 : p.status ≠ OrderStatus.shipped
      · rw [if_pos h2]; exact hp
      · rw [if_neg h2]
        unfold setEscrowAutoRelease
        rw [if_neg (fun hc => by
          have h3 : p.escrow.autoReleaseAt = none := hc.2
          rw [hp] at h3
          exact Option.noConfusion h3)]
        exact hp

/-- C6 (witness): the theorem at a concrete shipped order of seller 2,
delivered at time 0 and re-confirmed at time 999. -/
theorem c6_witness :
    (confirmDelivery c6order 2 0).isOk = true ∧
    (afterOp (confirmDelivery c6order 2 0) c6order).status = OrderStatus.delivered ∧
    (afterOp (confirmDelivery c6order 2 0) c6order).shipping.deliveredAt = some 0 ∧
    (afterOp (confirmDelivery c6order 2 0) c6order).escrow.status = EscrowStatus.held ∧
    (afterOp (confirmDelivery c6order 2 0) c6order).escrow.autoReleaseAt
      = some (0 + (ESCROW_HOLD_DAYS : Int) * msPerDay) ∧
    (confirmDelivery (afterOp (confirmDelivery c6order 2 0) c6order) 2 999).isOk
      = false := by
  have h := c6_theorem c6order 2 0 999 rfl rfl rfl
  exact ⟨h.1, h.2.1, h.2.2.1, h.2.2.2.1, h.2.2.2.2.1, h.2.2.2.2.2.1⟩

/-- C8: with a non-empty reason and the order's buyer as caller,
requestRefund succeeds exactly when canRequestRefund holds, recording a
pending refund sub-record (amount = order total, requested now, neither
approved nor processed) while leaving every escrow field unchanged;
otherwise it fails with REFUND_NOT_ALLOWED and leaves the order unchanged. -/
theorem c8_theorem (o : Order) (u : Nat) (reason desc : String) (now : Int)
    (hres : reason ≠ "") (hu : o.customerId = u) :
    (canRequestRefund now o = true →
        (requestRefund o u reason desc now).isOk = true ∧
        (afterOp (requestRefund o u reason desc now) o).escrow = o.escrow ∧
        (afterOp (requestRefund o u reason desc now) o).refund.isRefunded = false ∧
        (afterOp (requestRefund o u reason desc now) o).refund.amount
          = some o.pricing.total ∧
        (afterOp (requestRefund o u reason desc now) o).refund.requestedAt
          = some now ∧
        (afterOp (requestRefund o u reason desc now) o).refund.approvedAt = none ∧
        (afterOp (requestRefund o u reason desc now) o).refund.processedAt = none) ∧
    (canRequestRefund now o = false →
        requestRefund o u reason desc now = .error .REFUND_NOT_ALLOWED ∧
        afterOp (requestRefund o u reason desc now) o = o) := by
  constructor
  · intro hcan
    have he : requestRefund o u reason desc now = .ok { o with
        refund := { isRefunded := false, reason := some reason,
                    amount := some o.pricing.total, requestedAt := some now },
        notes := o.notes ++
          [{ type := "customer",
             message := "Refund requested: " ++ reason ++ ". " ++ desc,
             createdBy := u, createdAt := now }] } := by
      unfold requestRefund
      rw [if_neg hres, if_neg (by simp [hu]), if_neg (by simp [hcan])]
    rw [he]
    exact ⟨rfl, rfl, rfl, rfl, rfl, rfl, rfl⟩
  · intro hcan
    have he : requestRefund o u reason desc now = .error .REFUND_NOT_ALLOWED := by
      unfold requestRefund
      rw [if_neg hres, if_neg (by simp [hu]), if_pos hcan]
    rw [he]
    exact ⟨rfl, rfl⟩

/-- C8 (witness): the theorem at a concrete held delivered order — a refund
request inside the window succeeds without touching escrow, and one past the
30-day window fails. -/
theorem c8_witness :
    ((requestRefund c8order 1 "damaged" "box crushed" 100).isOk = true ∧
      (afterOp (requestRefund c8order 1 "damaged" "box crushed" 100) c8order).escrow
        = c8order.escrow ∧
      (afterOp (requestRefund c8order 1 "damaged" "box crushed" 100)
          c8order).refund.isRefunded = false ∧
      (afterOp (requestRefund c8order 1 "damaged" "box crushed" 100)
          c8order).refund.amount = some c8order.pricing.total ∧
      (afterOp (requestRefund c8order 1 "damaged" "box crushed" 100)
          c8order).refund.requestedAt = some 100 ∧
      (afterOp (requestRefund c8order 1 "damaged" "box crushed" 100)
          c8order).refund.approvedAt = none ∧
      (afterOp (requestRefund c8order 1 "damaged" "box crushed" 100)
          c8order).refund.processedAt = none) ∧
    (requestRefund c8order 1 "damaged" "late" 2592000001
        = .error .REFUND_NOT_ALLOWED ∧
      afterOp (requestRefund c8order 1 "damaged" "late" 2592000001) c8order
        = c8order) := by
  have h1 := c8_theorem c8order 1 "damaged" "box crushed" 100 (by decide) rfl
  have h2 := c8_theorem c8order 1 "damaged" "late" 2592000001 (by decide) rfl
  exact ⟨h1.1 (by decide), h2.2 (by decide)⟩

/-- C4: if any requested item resolves to a missing or non-active product, to
a product without a verified active seller, or to a quantity above the
product's stock, then createOrder fails, no product stock changes and no
order is persisted — the whole database is returned untouched. -/
theorem c4_theorem (db : Db) (cid : Nat) (items : List ReqItem)
    (addr : Address) (pm : String) (onum : String)
    (h : ∃ it ∈ items, itemIssue db it = true) :
    ((createOrder db cid items addr pm onum).1).isOk = false ∧
    (createOrder db cid items addr pm onum).2 = db := by
  obtain ⟨it, hmem, hbad⟩ := h
  have hv := validateItems_isOk_false hmem (checkItem_isOk_false_of_issue hbad)
  unfold createOrder
  by_cases hrv : requestValid items addr pm = false
  · rw [if_pos hrv]
    exact ⟨rfl, rfl⟩
  · rw [if_neg hrv]
    cases hvv : validateItems db items with
    | error e => exact ⟨rfl, rfl⟩
    | ok ois => rw [hvv] at hv; simp [Except.isOk, Except.toBool] at hv

/-- C4 (witness): Scenario E — an item owned by the unverified seller makes
createOrder fail and leaves the catalog untouched. -/
theorem c4_witness :
    ((createOrder sampleDb 1 [{ productId := 6, quantity := 1 }] baseAddress
        "bkash" "BD1").1).isOk = false ∧
    (createOrder sampleDb 1 [{ productId := 6, quantity := 1 }] baseAddress
        "bkash" "BD1").2 = sampleDb :=
  c4_theorem sampleDb 1 [{ productId := 6, quantity := 1 }] baseAddress "bkash"
    "BD1" (by decide)

/-- C5: the claim says a reservation succeeds only when current stock covers
it, so stock never goes negative; but one createOrder request listing the
same product twice checks each quantity against the unreserved stock and
then decrements unconditionally — with stock 4 and two line items of
quantity 3 the order is created and the stock ends at -2. -/
theorem c5_theorem :
    ((createOrder sampleDb 1
        [{ productId := 1, quantity := 3 }, { productId := 1, quantity := 3 }]
        baseAddress "bkash" "BD2").1).isOk = true ∧
    stockOf (createOrder sampleDb 1
        [{ productId := 1, quantity := 3 }, { productId := 1, quantity := 3 }]
        baseAddress "bkash" "BD2").2 1 = some (-2) :=
  ⟨rfl, rfl⟩

/-- C9: every order built by createOrder prices itself — the subtotal is the
sum of unit price times quantity over its line items, shipping is the flat
60 fee waived when the subtotal exceeds 1000, tax is stubbed at 0, the
discount defaults to 0, and the total is recomputed as
subtotal + shipping + tax - discount; the request carries no pricing
fields. -/
theorem c9_theorem (db : Db) (cid : Nat) (items : List ReqItem)
    (addr : Address) (pm : String) (onum : String) (o' : Order)
    (h : (createOrder db cid items addr pm onum).1 = .ok o') :
    o'.pricing.subtotal = subtotalOf o'.items ∧
    o'.pricing.shippingCost = (if o'.pricing.subtotal > 1000 then 0 else 60) ∧
    o'.pricing.tax = 0 ∧
    o'.pricing.discount = 0 ∧
    o'.pricing.total = o'.pricing.subtotal + o'.pricing.shippingCost
      + o'.pricing.tax - o'.pricing.discount := by
  unfold createOrder at h
  by_cases hrv : requestValid items addr pm = false
  · rw [if_pos hrv] at h
    exact Except.noConfusion h
  · rw [if_neg hrv] at h
    cases hvv : validateItems db items with
    | error e => rw [hvv] at h; exact Except.noConfusion h
    | ok ois =>
        rw [hvv] at h
        dsimp only at h
        cases hh : items.head? with
        | none => rw [hh] at h; exact Except.noConfusion h
        | some it0 =>
            rw [hh] at h
            dsimp only at h
            cases hf : findProduct db.products it0.productId with
            | none => rw [hf] at h; exact Except.noConfusion h
            | some p0 =>
                rw [hf] at h
                dsimp only at h
                injection h with h
                subst h
                exact ⟨rfl, rfl, rfl, rfl, rfl⟩

/-- C9 (witness): the theorem at a concrete one-item order of 2 units at
price 100 — subtotal 200, shipping 60, total 260. -/
theorem c9_witness :
    (afterOp ((createOrder sampleDb 1 [{ productId := 1, quantity := 2 }]
        baseAddress "bkash" "BD3").1) baseOrder).pricing.subtotal
      = subtotalOf (afterOp ((createOrder sampleDb 1
          [{ productId := 1, quantity := 2 }] baseAddress "bkash" "BD3").1)
          baseOrder).items ∧
    (afterOp ((createOrder sampleDb 1 [{ productId := 1, quantity := 2 }]
        baseAddress "bkash" "BD3").1) baseOrder).pricing.shippingCost
      = (if (afterOp ((createOrder sampleDb 1
            [{ productId := 1, quantity := 2 }] baseAddress "bkash" "BD3").1)
            baseOrder).pricing.subtotal > 1000 then 0 else 60) ∧
    (afterOp ((createOrder sampleDb 1 [{ productId := 1, quantity := 2 }]
        baseAddress "bkash" "BD3").1) baseOrder).pricing.tax = 0 ∧
    (afterOp ((createOrder sampleDb 1 [{ productId := 1, quantity := 2 }]
        baseAddress "bkash" "BD3").1) baseOrder).pricing.discount = 0 ∧
    (afterOp ((createOrder sampleDb 1 [{ productId := 1, quantity := 2 }]
        baseAddress "bkash" "BD3").1) baseOrder).pricing.total
      = (afterOp ((createOrder sampleDb 1 [{ productId := 1, quantity := 2 }]
          baseAddress "bkash" "BD3").1) baseOrder).pricing.subtotal
        + (afterOp ((createOrder sampleDb 1 [{ productId := 1, quantity := 2 }]
            baseAddress "bkash" "BD3").1) baseOrder).pricing.shippingCost
        + (afterOp ((createOrder sampleDb 1 [{ productId := 1, quantity := 2 }]
            baseAddress "bkash" "BD3").1) baseOrder).pricing.tax
        - (afterOp ((createOrder sampleDb 1 [{ productId := 1, quantity := 2 }]
            baseAddress "bkash" "BD3").1) baseOrder).pricing.discount :=
  c9_theorem sampleDb 1 [{ productId := 1, quantity := 2 }] baseAddress "bkash"
    "BD3" (afterOp ((createOrder sampleDb 1 [{ productId := 1, quantity := 2 }]
      baseAddress "bkash" "BD3").1) baseOrder) (by rfl)

/-- C10: when the request passes validation and every item individually
resolves to an available product, createOrder succeeds even when the items
belong to different sellers: the order records every requested line item
(same product ids and quantities, in order) under the single seller of the
first item's product. -/
theorem c10_theorem (db : Db) (cid : Nat) (items : List ReqItem)
    (addr : Address) (pm : String) (onum : String)
    (hrv : requestValid items addr pm = true)
    (hitems : ∀ it ∈ items, (checkItem db it).isOk = true) :
    ((createOrder db cid items addr pm onum).1).isOk = true ∧
    ((createOrder db cid items addr pm onum).1).toOption.map Order.sellerId
      = firstSellerId db items ∧
    ((createOrder db cid items addr pm onum).1).toOption.map
        (fun o => o.items.map OrderItem.productId)
      = some (items.map ReqItem.productId) ∧
    ((createOrder db cid items addr pm onum).1).toOption.map
        (fun o => o.items.map OrderItem.quantity)
      = some (items.map ReqItem.quantity) := by
  obtain ⟨ois, hv, hp, hq⟩ := validateItems_ok_all hitems
  cases items with
  | nil => simp [requestValid] at hrv
  | cons it0 rest =>
      obtain ⟨p0, hp0⟩ :=
        checkItem_isOk_find (hitems it0 (List.mem_cons_self it0 rest))
      have hco : createOrder db cid (it0 :: rest) addr pm onum
          = (.ok (newOrderOf cid ois addr pm onum p0),
             { db with
               orders := db.orders ++ [newOrderOf cid ois addr pm onum p0],
               products := reserveAll db.products ois }) := by
        unfold createOrder
        rw [if_neg (by simp [hrv]), hv]
        simp only [List.head?_cons]
        rw [hp0]
      rw [hco]
      refine ⟨rfl, ?_, ?_, ?_⟩
      · show some p0.sellerId = firstSellerId db (it0 :: rest)
        simp [firstSellerId, hp0]
      · show some (ois.map OrderItem.productId)
          = some ((it0 :: rest).map ReqItem.productId)
        rw [hp]
      · show some (ois.map OrderItem.quantity)
          = some ((it0 :: rest).map ReqItem.quantity)
        rw [hq]

/-- C10 (witness): the theorem at a two-item request whose products belong
to two different verified sellers. -/
theorem c10_witness :
    ((createOrder sampleDb 1 [{ productId := 1, quantity := 1 },
        { productId := 5, quantity := 1 }] baseAddress "bkash" "BD4").1).isOk
      = true ∧
    ((createOrder sampleDb 1 [{ productId := 1, quantity := 1 },
        { productId := 5, quantity := 1 }] baseAddress "bkash"
        "BD4").1).toOption.map Order.sellerId
      = firstSellerId sampleDb [{ productId := 1, quantity := 1 },
          { productId := 5, quantity := 1 }] ∧
    ((createOrder sampleDb 1 [{ productId := 1, quantity := 1 },
        { productId := 5, quantity := 1 }] baseAddress "bkash"
        "BD4").1).toOption.map (fun o => o.items.map OrderItem.productId)
      = some ([{ productId := 1, quantity := 1 },
          { productId := 5, quantity := 1 }].map ReqItem.productId) ∧
    ((createOrder sampleDb 1 [{ productId := 1, quantity := 1 },
        { productId := 5, quantity := 1 }] baseAddress "bkash"
        "BD4").1).toOption.map (fun o => o.items.map OrderItem.quantity)
      = some ([{ productId := 1, quantity := 1 },
          { productId := 5, quantity := 1 }].map ReqItem.quantity) :=
  c10_theorem sampleDb 1 [{ productId := 1, quantity := 1 },
    { productId := 5, quantity := 1 }] baseAddress "bkash" "BD4"
    (by decide) (by decide)
